import Mathlib

/-!
Verification development for the fi_tools repository: a Monte Carlo
portfolio projector consisting of a backend service
(`backend/montecarlo.py`, `backend/app.py`) and two standalone scripts
(`gpt1o_monte_carlo.py`, single-factor; `claude_3.5_monte_carlo.py`,
multi-factor).

Modelling conventions:
* Python floats are modelled as real numbers (`ℝ`); a pandas `NaN`
  produced by an aggregation over an empty/short series is modelled as
  `none` in an `Option ℝ` result, and a raised Python exception as
  `Except.error`.
* The numpy random generator is modelled as an explicit stream
  `z : ℕ → ℝ` of standard-normal values consumed in call order;
  `rng.normal(mu, sigma)` is the location-scale transform of the next
  stream value and `np.random.lognormal(mu, sigma)` its exponential.
* Python `range(n)` iterates zero times for `n ≤ 0`, hence loop counts
  taken from Python ints are `Int.toNat`-converted.
-/

noncomputable section

namespace FiTools

/-- Model of numpy `rng.normal(mu, sigma)`: a Normal(mu, sigma) draw obtained
from a standard-normal value `u` by the location-scale transform. -/
def normalDraw (mu sigma u : ℝ) : ℝ := mu + sigma * u

/-- Model of numpy `np.random.lognormal(mu, sigma)`: `exp` of a
Normal(mu, sigma) draw. -/
def lognormalDraw (mu sigma u : ℝ) : ℝ := Real.exp (normalDraw mu sigma u)

/-- `series.pct_change().dropna()` for a single cleaned price series
(`backend/montecarlo.py` line 67, `claude_3.5_monte_carlo.py` line 25):
the consecutive percentage changes `(p_{i+1} - p_i) / p_i`, the first
(undefined) entry dropped.  Zero prices (which pandas would turn into
`inf`/`NaN`) are outside the modelled domain; claims about them carry a
nonzero-price hypothesis. -/
def dailyReturns (prices : List ℝ) : List ℝ :=
  (prices.zip prices.tail).map (fun q => (q.2 - q.1) / q.1)

/-- pandas `Series.mean()` with default `skipna`: `NaN` (modelled `none`)
on an empty series, otherwise the arithmetic mean. -/
def pandasMean (l : List ℝ) : Option ℝ :=
  if l.isEmpty then none else some (l.sum / l.length)

/-- pandas `Series.std()` (sample standard deviation, `ddof = 1`):
`NaN` (modelled `none`) when fewer than 2 observations, otherwise
`sqrt (Σ (x - mean)² / (n - 1))`. -/
def sampleStd (l : List ℝ) : Option ℝ :=
  if l.length < 2 then none
  else some (Real.sqrt
    ((l.map (fun x => (x - l.sum / l.length) ^ 2)).sum / ((l.length : ℝ) - 1)))

/-- `backend/montecarlo.py` lines 79–83: per-asset annualized mean return
`(1 + mean_daily_ret) ** 252 - 1`, the pandas `NaN` of an empty return
series propagating through the arithmetic. -/
def mean_annual_ret (prices : List ℝ) : Option ℝ :=
  (pandasMean (dailyReturns prices)).map (fun m => (1 + m) ^ (252 : ℕ) - 1)

/-- `claude_3.5_monte_carlo.py` line 33: geometric-compound annualized
return `(1 + daily_returns).prod() ** (252 / len(daily_returns)) - 1`;
Python raises `ZeroDivisionError` at `252 / 0` when the cleaned return
series is empty. -/
def annual_return_geom (prices : List ℝ) : Except String ℝ :=
  if (dailyReturns prices).length = 0 then Except.error "ZeroDivisionError"
  else Except.ok
    (((dailyReturns prices).map (fun r => 1 + r)).prod
      ^ ((252 : ℝ) / ((dailyReturns prices).length : ℝ)) - 1)

/-- `claude_3.5_monte_carlo.py` line 36: annualized volatility
`daily_returns.std() * sqrt(252)`, the pandas `NaN` of a length-<2 return
series propagating through the multiplication. -/
def annual_vol_geom (prices : List ℝ) : Option ℝ :=
  (sampleStd (dailyReturns prices)).map (fun sd => sd * Real.sqrt 252)

/-- `backend/app.py` lines 165–166: the `/simulate` route's only
validation, rejecting a tickers/weights length mismatch before the
simulation is invoked. -/
def simulate_validate (tickers : List String) (weights : List ℝ) :
    Except String Unit :=
  if tickers.length ≠ weights.length then
    Except.error "Length mismatch between tickers and weights"
  else Except.ok ()

/-- `backend/montecarlo.py` lines 96–100 / `gpt1o_monte_carlo.py` lines
83–89: the year loop of one single-factor path.  `sfGrowth mu sigma z start
y` is `total_growth` after `y` iterations, the loop for year `k` consuming
stream value `z (start + k)`. -/
def sfGrowth (mu sigma : ℝ) (z : ℕ → ℝ) (start : ℕ) : ℕ → ℝ
  | 0 => 1
  | y + 1 => sfGrowth mu sigma z start y *
      Real.exp (normalDraw mu sigma (z (start + y)))

/-- `backend/montecarlo.py` lines 88–103 (also `gpt1o_monte_carlo.py`
lines 73–93): the single-factor simulation proper, after the estimation
stage has produced the portfolio-weighted mean return `pmr`.
`mu_log = log(1 + pmr)`, `sigma_log = portfolio_std_est`; path `i`
consumes stream values `z (i * years), …` and records
`initial_investment * total_growth`. -/
def run_monte_carlo_simulation_core (pmr std initial : ℝ)
    (years n_sims : ℤ) (z : ℕ → ℝ) : List ℝ :=
  let mu_log := Real.log (1 + pmr)
  let sigma_log := std
  (List.range n_sims.toNat).map (fun i =>
    initial * sfGrowth mu_log sigma_log z (i * years.toNat) years.toNat)

/-- Spec §4.2, single-factor strategy, stated in the spec's own words:
drift `mu = ln(1 + portfolioWeightedMeanReturn)`, volatility
`sigma = config.portfolioVolatility`; each of `simulationCount` paths is
`initialInvestment` times the product over `horizonYears` years of
`exp(logReturn)` with `logReturn ~ Normal(mu, sigma)`. -/
def specSingleFactorSample (pmr sigma initial : ℝ)
    (years n_sims : ℤ) (z : ℕ → ℝ) : List ℝ :=
  (List.range n_sims.toNat).map (fun i =>
    initial * ∏ y ∈ Finset.range years.toNat,
      Real.exp (normalDraw (Real.log (1 + pmr)) sigma
        (z (i * years.toNat + y))))

/-- `claude_3.5_monte_carlo.py` lines 65–71: the inner asset loop of one
simulated year.  `assets` is the `holdings` dict in insertion order
(name, weight); `ret`/`vol` are the module-level `returns`/`volatility`
lookups; the loop for the `j`-th asset consumes stream value `z (k + j)`
where `k` is the index of the next unconsumed draw.  The Python loop
accumulates `annual_return += random_return * weight` left to right; the
right-fold below produces the same real sum. -/
def mfAnnualReturn (ret vol : String → ℝ) (z : ℕ → ℝ) :
    List (String × ℝ) → ℕ → ℝ
  | [], _ => 0
  | (a, w) :: rest, k =>
      (lognormalDraw (Real.log (1 + ret a) - 0.5 * vol a ^ 2) (vol a)
          (z k) - 1) * w
        + mfAnnualReturn ret vol z rest (k + 1)

/-- `claude_3.5_monte_carlo.py` lines 62–73: the year loop of one
multi-factor path; `value` starts at the initial investment and is
multiplied by `(1 + annual_return)` each year.  The path's draws start at
stream index `base`; year `y` consumes the block starting at
`base + y * assets.length`. -/
def mfPathValue (assets : List (String × ℝ)) (ret vol : String → ℝ)
    (initial : ℝ) (z : ℕ → ℝ) (base : ℕ) : ℕ → ℝ
  | 0 => initial
  | y + 1 => mfPathValue assets ret vol initial z base y
      * (1 + mfAnnualReturn ret vol z assets (base + y * assets.length))

/-- `claude_3.5_monte_carlo.py` lines 58–77 (`run_simulation`): the
multi-factor simulation, one terminal value per path, path `i` consuming
the draw block starting at `i * (years * numAssets)`. -/
def run_simulation (assets : List (String × ℝ)) (ret vol : String → ℝ)
    (initial : ℝ) (years n_sims : ℤ) (z : ℕ → ℝ) : List ℝ :=
  (List.range n_sims.toNat).map (fun i =>
    mfPathValue assets ret vol initial z
      (i * (years.toNat * assets.length)) years.toNat)

/-- Spec §4.2, multi-factor strategy, stated in the spec's own words:
per asset `mu_a = ln(1 + meanReturn_a) - 0.5 * volatility_a²`,
`sigma_a = volatility_a`; each year's portfolio return is
`Σ_a weight_a * (Lognormal(mu_a, sigma_a) - 1)` and the terminal value is
the initial investment times the product of `(1 + annualReturn)` over the
horizon. -/
def specMultiFactorSample (assets : List (String × ℝ))
    (ret vol : String → ℝ) (initial : ℝ) (years n_sims : ℤ)
    (z : ℕ → ℝ) : List ℝ :=
  (List.range n_sims.toNat).map (fun i =>
    initial * ∏ y ∈ Finset.range years.toNat,
      (1 + ∑ a ∈ Finset.range assets.length,
        (assets.getD a ("", 0)).2 *
          (lognormalDraw
            (Real.log (1 + ret (assets.getD a ("", 0)).1)
              - 0.5 * vol (assets.getD a ("", 0)).1 ^ 2)
            (vol (assets.getD a ("", 0)).1)
            (z (i * (years.toNat * assets.length) + y * assets.length + a))
            - 1)))

/-- numpy ascending sort of a real sample (used by `np.percentile`). -/
def sortR (s : List ℝ) : List ℝ := List.insertionSort (· ≤ ·) s

/-- Linear interpolation of a (sorted) list at fractional index `h`, as
performed by `np.percentile`'s default method: with `i = ⌊h⌋`, the result
is `a[i] + (h - i) * (a[i+1] - a[i])` (the `a[i+1]` term contributing
nothing at the top end, where `h - i = 0`). -/
def interpAt (a : List ℝ) (h : ℝ) : ℝ :=
  a.getD (⌊h⌋).toNat 0
    + (h - (⌊h⌋ : ℝ)) * (a.getD ((⌊h⌋).toNat + 1) (a.getD (⌊h⌋).toNat 0)
        - a.getD (⌊h⌋).toNat 0)

/-- `np.percentile(s, p)` with the default linear-interpolation rule
(`backend/montecarlo.py` lines 107–109): interpolate the sorted sample at
virtual index `p/100 * (n - 1)`. -/
def percentile (s : List ℝ) (p : ℝ) : ℝ :=
  interpAt (sortR s) (p / 100 * ((s.length : ℝ) - 1))

/-- `np.mean(s)` (`backend/montecarlo.py` line 110). -/
def sampleMean (s : List ℝ) : ℝ := s.sum / s.length

/-! ### Helper lemmas -/

lemma sfGrowth_eq_prod (mu sigma : ℝ) (z : ℕ → ℝ) (start : ℕ) :
    ∀ y : ℕ, sfGrowth mu sigma z start y
      = ∏ k ∈ Finset.range y, Real.exp (normalDraw mu sigma (z (start + k)))
  | 0 => by simp [sfGrowth]
  | y + 1 => by
      rw [sfGrowth, sfGrowth_eq_prod mu sigma z start y,
        Finset.prod_range_succ]

lemma sfGrowth_pos (mu sigma : ℝ) (z : ℕ → ℝ) (start : ℕ) :
    ∀ y : ℕ, 0 < sfGrowth mu sigma z start y
  | 0 => one_pos
  | y + 1 => mul_pos (sfGrowth_pos mu sigma z start y) (Real.exp_pos _)

lemma mfAnnualReturn_eq_sum (ret vol : String → ℝ) (z : ℕ → ℝ) :
    ∀ (assets : List (String × ℝ)) (k : ℕ),
      mfAnnualReturn ret vol z assets k
        = ∑ a ∈ Finset.range assets.length,
            (assets.getD a ("", 0)).2 *
              (lognormalDraw
                (Real.log (1 + ret (assets.getD a ("", 0)).1)
                  - 0.5 * vol (assets.getD a ("", 0)).1 ^ 2)
                (vol (assets.getD a ("", 0)).1) (z (k + a)) - 1)
  | [], k => by simp [mfAnnualReturn]
  | (a, w) :: rest, k => by
      rw [mfAnnualReturn, mfAnnualReturn_eq_sum ret vol z rest (k + 1),
        List.length_cons, Finset.sum_range_succ']
      simp only [List.getD_cons_succ, List.getD_cons_zero, Nat.add_zero]
      have hshift :
          (∑ j ∈ Finset.range rest.length,
            (rest.getD j ("", 0)).2 *
              (lognormalDraw
                (Real.log (1 + ret (rest.getD j ("", 0)).1)
                  - 0.5 * vol (rest.getD j ("", 0)).1 ^ 2)
                (vol (rest.getD j ("", 0)).1) (z (k + (j + 1))) - 1))
          = ∑ j ∈ Finset.range rest.length,
            (rest.getD j ("", 0)).2 *
              (lognormalDraw
                (Real.log (1 + ret (rest.getD j ("", 0)).1)
                  - 0.5 * vol (rest.getD j ("", 0)).1 ^ 2)
                (vol (rest.getD j ("", 0)).1) (z (k + 1 + j)) - 1) :=
        Finset.sum_congr rfl (fun j _ => by
          rw [show k + (j + 1) = k + 1 + j by omega])
      rw [hshift]
      ring

lemma mfPathValue_eq_prod (assets : List (String × ℝ))
    (ret vol : String → ℝ) (initial : ℝ) (z : ℕ → ℝ) (base : ℕ) :
    ∀ y : ℕ, mfPathValue assets ret vol initial z base y
      = initial * ∏ j ∈ Finset.range y,
          (1 + mfAnnualReturn ret vol z assets (base + j * assets.length))
  | 0 => by simp [mfPathValue]
  | y + 1 => by
      rw [mfPathValue,
        mfPathValue_eq_prod assets ret vol initial z base y,
        Finset.prod_range_succ, mul_assoc]

lemma mfPathValue_two (assets : List (String × ℝ))
    (ret vol : String → ℝ) (initial : ℝ) (z : ℕ → ℝ) (base : ℕ) :
    ∀ y : ℕ, mfPathValue assets ret vol (2 * initial) z base y
      = 2 * mfPathValue assets ret vol initial z base y
  | 0 => rfl
  | y + 1 => by
      rw [mfPathValue, mfPathValue,
        mfPathValue_two assets ret vol initial z base y, mul_assoc]

lemma dailyReturns_length (prices : List ℝ) :
    (dailyReturns prices).length = prices.length - 1 := by
  simp [dailyReturns, Nat.min_eq_right, Nat.sub_le]

lemma dailyReturns_replicate (p : ℝ) :
    ∀ n : ℕ, dailyReturns (List.replicate (n + 1) p) = List.replicate n 0
  | 0 => rfl
  | n + 1 => by
      have ih := dailyReturns_replicate p n
      simp only [List.replicate_succ] at ih ⊢
      rw [show dailyReturns (p :: p :: List.replicate n p)
          = (p - p) / p :: dailyReturns (p :: List.replicate n p) from rfl,
        ih]
      simp

lemma map_congr_fun {α β : Type} (l : List α) {f g : α → β}
    (h : ∀ a, f a = g a) : l.map f = l.map g :=
  congrArg (fun fn => List.map fn l) (funext h)

lemma getD_map_two : ∀ (l : List ℝ) (i : ℕ) (d : ℝ),
    (l.map (fun x => 2 * x)).getD i (2 * d) = 2 * l.getD i d
  | [], _, _ => by simp
  | x :: t, 0, d => by simp
  | x :: t, i + 1, d => by
      simp [List.getD_cons_succ, getD_map_two t i d]

lemma sum_map_two : ∀ l : List ℝ, (l.map (fun x => 2 * x)).sum = 2 * l.sum
  | [] => by simp
  | x :: t => by simp [sum_map_two t, mul_add]

lemma sortR_map_two (s : List ℝ) :
    sortR (s.map (fun x => 2 * x)) = (sortR s).map (fun x => 2 * x) := by
  apply List.eq_of_perm_of_sorted
    (r := ((· ≤ ·) : ℝ → ℝ → Prop))
  · exact (List.perm_insertionSort _ _).trans
      ((List.perm_insertionSort _ s).symm.map _)
  · exact List.sorted_insertionSort _ _
  · exact List.Pairwise.map _ (fun a b hab => by linarith)
      (List.sorted_insertionSort _ s)

lemma interpAt_map_two (a : List ℝ) (h : ℝ) :
    interpAt (a.map (fun x => 2 * x)) h = 2 * interpAt a h := by
  unfold interpAt
  have h0 : (a.map (fun x => 2 * x)).getD (⌊h⌋).toNat 0
      = 2 * a.getD (⌊h⌋).toNat 0 := by
    simpa using getD_map_two a (⌊h⌋).toNat 0
  rw [h0, getD_map_two a ((⌊h⌋).toNat + 1) (a.getD (⌊h⌋).toNat 0)]
  ring

/-! ### Claim theorems -/

/-- Claim C1 — the single-factor simulation computes drift
`mu = ln(1 + portfolioWeightedMeanReturn)`, uses
`sigma = config.portfolioVolatility`, and each of the `simulationCount`
paths starts at growth 1, multiplies by `exp` of a Normal(mu, sigma) draw
for each of `horizonYears` years, and records
`initialInvestment * growth`: the embedded loop equals the spec-side
closed form. -/
theorem c1_single_factor_algorithm (pmr std initial : ℝ)
    (years n_sims : ℤ) (z : ℕ → ℝ) :
    run_monte_carlo_simulation_core pmr std initial years n_sims z
      = specSingleFactorSample pmr std initial years n_sims z := by
  unfold run_monte_carlo_simulation_core specSingleFactorSample
  simp only [sfGrowth_eq_prod]

/-- Claim C2 — the multi-factor simulation computes per-asset
`mu_a = ln(1 + meanReturn_a) - 0.5 * volatility_a²`,
`sigma_a = volatility_a`, draws `r_a = Lognormal(mu_a, sigma_a) - 1`
independently for each asset, each year, each path, forms the portfolio
annual return `Σ weight_a * r_a`, and multiplies the running value by
`(1 + annualReturn)`: the embedded loops equal the spec-side closed
form. -/
theorem c2_multi_factor_algorithm (assets : List (String × ℝ))
    (ret vol : String → ℝ) (initial : ℝ) (years n_sims : ℤ)
    (z : ℕ → ℝ) :
    run_simulation assets ret vol initial years n_sims z
      = specMultiFactorSample assets ret vol initial years n_sims z := by
  unfold run_simulation specMultiFactorSample
  simp only [mfPathValue_eq_prod, mfAnnualReturn_eq_sum]

/-- Claim C3, counterexample — with `horizonYears = 0 ≤ 0` the code does
not fail with a ConfigError: the year loop simply runs zero times and a
full sample is returned (here two paths, each terminal value equal to the
initial investment). -/
theorem c3_counterexample :
    run_monte_carlo_simulation_core 0.1 0.28 100 0 2 (fun _ => 0)
      = [100, 100] := by
  norm_num [run_monte_carlo_simulation_core, sfGrowth, List.range_succ]
  rfl

/-- Claim C3, amended — of the listed checks only the tickers/weights
length mismatch is enforced (by the HTTP layer in `backend/app.py`,
before the simulation is invoked); non-positive `horizonYears` or
`simulationCount` are not rejected: the Python loops run zero times, so
`horizonYears ≤ 0` yields a sample of `simulationCount` copies of the
initial investment and `simulationCount ≤ 0` yields an empty sample. -/
theorem c3_amended (tickers : List String) (weights : List ℝ)
    (hlen : tickers.length ≠ weights.length)
    (pmr std initial : ℝ) (years n_sims m : ℤ) (z : ℕ → ℝ)
    (hy : years ≤ 0) (hm : m ≤ 0) :
    simulate_validate tickers weights
        = Except.error "Length mismatch between tickers and weights"
      ∧ run_monte_carlo_simulation_core pmr std initial years n_sims z
          = List.replicate n_sims.toNat initial
      ∧ run_monte_carlo_simulation_core pmr std initial years m z = [] := by
  refine ⟨by simp [simulate_validate, hlen], ?_, ?_⟩
  · simp [run_monte_carlo_simulation_core, Int.toNat_of_nonpos hy, sfGrowth,
      List.map_const']
  · simp [run_monte_carlo_simulation_core, Int.toNat_of_nonpos hm]

/-- Witness for the amended claim C3 at concrete inputs: mismatched
lists `["A"]`/`[]`, `horizonYears = 0`, `simulationCount = 2` (and `0`
for the empty-sample conjunct). -/
theorem c3_amended_witness :
    (["A"] : List String).length ≠ ([] : List ℝ).length
      ∧ (simulate_validate ["A"] []
          = Except.error "Length mismatch between tickers and weights"
        ∧ run_monte_carlo_simulation_core 0 0 1 0 2 (fun _ => 0)
            = List.replicate (2 : ℤ).toNat 1
        ∧ run_monte_carlo_simulation_core 0 0 1 0 0 (fun _ => 0) = []) :=
  ⟨by decide,
    c3_amended ["A"] [] (by decide) 0 0 1 0 2 0 (fun _ => 0)
      (by decide) (by decide)⟩

/-- Claim C4 — the backend estimator computes the annualized mean return
in the arithmetic-mean-then-compound form `(1 + meanDailyReturn)^252 - 1`,
while the historical-metrics script computes the geometric-compound form
`prod(1 + dailyReturn)^(252/N) - 1` with `N` the number of daily return
observations (`N = numberOfPrices - 1`). -/
theorem c4_annualized_mean_modes (prices : List ℝ)
    (hne : dailyReturns prices ≠ []) :
    mean_annual_ret prices
        = some ((1 + (dailyReturns prices).sum
            / ((dailyReturns prices).length : ℝ)) ^ (252 : ℕ) - 1)
      ∧ annual_return_geom prices
        = Except.ok ((((dailyReturns prices).map (fun r => 1 + r)).prod)
            ^ ((252 : ℝ) / ((dailyReturns prices).length : ℝ)) - 1)
      ∧ (dailyReturns prices).length = prices.length - 1 := by
  refine ⟨?_, ?_, dailyReturns_length prices⟩
  · simp [mean_annual_ret, pandasMean, List.isEmpty_iff, hne]
  · simp [annual_return_geom, List.length_eq_zero, hne]

/-- Witness for claim C4 at the concrete two-point price series
`[1, 2]`. -/
theorem c4_annualized_mean_modes_witness :
    dailyReturns [(1 : ℝ), 2] ≠ []
      ∧ (mean_annual_ret [(1 : ℝ), 2]
          = some ((1 + (dailyReturns [(1 : ℝ), 2]).sum
              / ((dailyReturns [(1 : ℝ), 2]).length : ℝ)) ^ (252 : ℕ) - 1)
        ∧ annual_return_geom [(1 : ℝ), 2]
          = Except.ok ((((dailyReturns [(1 : ℝ), 2]).map
              (fun r => 1 + r)).prod)
              ^ ((252 : ℝ) / ((dailyReturns [(1 : ℝ), 2]).length : ℝ)) - 1)
        ∧ (dailyReturns [(1 : ℝ), 2]).length = [(1 : ℝ), 2].length - 1) :=
  ⟨by simp [dailyReturns],
    c4_annualized_mean_modes [(1 : ℝ), 2] (by simp [dailyReturns])⟩

/-- Claim C5, counterexample — at the one-point price series `[2]`
(fewer than 2 clean observations) no DataError is raised: the backend
estimator silently produces the pandas `NaN` of an empty mean (modelled
`none`) and the historical-metrics script raises `ZeroDivisionError`
(from `252 / 0`), not a DataError. -/
theorem c5_counterexample :
    mean_annual_ret [(2 : ℝ)] = none
      ∧ annual_return_geom [(2 : ℝ)] = Except.error "ZeroDivisionError" := by
  constructor
  · simp [mean_annual_ret, pandasMean, dailyReturns]
  · simp [annual_return_geom, dailyReturns]

/-- Claim C5, amended — on a cleaned price series with fewer than 2
points the backend estimator does not fail: the empty daily-return series
has pandas mean `NaN` (modelled `none`), which propagates silently into
the annualized return; the historical-metrics variant raises a
`ZeroDivisionError` at `252 / len(daily_returns) = 252 / 0`, not a
DataError.  No DataError type exists in the code. -/
theorem c5_amended (prices : List ℝ) (h2 : prices.length < 2) :
    mean_annual_ret prices = none
      ∧ annual_return_geom prices = Except.error "ZeroDivisionError" := by
  have hnil : dailyReturns prices = [] := by
    have hlen := dailyReturns_length prices
    exact List.length_eq_zero.mp (by omega)
  constructor
  · simp [mean_annual_ret, pandasMean, hnil]
  · simp [annual_return_geom, hnil]

/-- Witness for the amended claim C5 at the concrete one-point series
`[1]`. -/
theorem c5_amended_witness :
    [(1 : ℝ)].length < 2
      ∧ (mean_annual_ret [(1 : ℝ)] = none
        ∧ annual_return_geom [(1 : ℝ)] = Except.error "ZeroDivisionError") :=
  ⟨by decide, c5_amended [(1 : ℝ)] (by decide)⟩

/-- Claim C6 — for every valid configuration (`simulationCount ≥ 0`
suffices) the sample length equals the simulation count, for both the
single-factor and the multi-factor strategy. -/
theorem c6_sample_size (pmr std initial : ℝ)
    (assets : List (String × ℝ)) (ret vol : String → ℝ) (initial2 : ℝ)
    (years n_sims : ℤ) (z zm : ℕ → ℝ) (hn : 0 ≤ n_sims) :
    ((run_monte_carlo_simulation_core pmr std initial years n_sims z).length
        : ℤ) = n_sims
      ∧ ((run_simulation assets ret vol initial2 years n_sims zm).length
        : ℤ) = n_sims := by
  constructor <;>
    simp [run_monte_carlo_simulation_core, run_simulation,
      Int.toNat_of_nonneg hn]

/-- Witness for claim C6 with `simulationCount = 2`. -/
theorem c6_sample_size_witness :
    (0 : ℤ) ≤ 2
      ∧ (((run_monte_carlo_simulation_core 0 0 1 1 2 (fun _ => 0)).length
            : ℤ) = 2
        ∧ ((run_simulation [] (fun _ => 0) (fun _ => 0) 1 1 2
            (fun _ => 0)).length : ℤ) = 2) :=
  ⟨by decide,
    c6_sample_size 0 0 1 [] (fun _ => 0) (fun _ => 0) 1 1 2
      (fun _ => 0) (fun _ => 0) (by decide)⟩

/-- Claim C7 — with the draw stream held fixed, doubling the initial
investment exactly doubles every terminal value of both strategies, and
doubling every sample value exactly doubles every percentile (hence p25,
p50, p75) and the mean. -/
theorem c7_scale_invariance (pmr std initial : ℝ)
    (assets : List (String × ℝ)) (ret vol : String → ℝ) (initialm : ℝ)
    (years n_sims : ℤ) (z zm : ℕ → ℝ) (s : List ℝ) (p : ℝ) :
    run_monte_carlo_simulation_core pmr std (2 * initial) years n_sims z
        = (run_monte_carlo_simulation_core pmr std initial years n_sims
            z).map (fun x => 2 * x)
      ∧ run_simulation assets ret vol (2 * initialm) years n_sims zm
        = (run_simulation assets ret vol initialm years n_sims zm).map
            (fun x => 2 * x)
      ∧ percentile (s.map (fun x => 2 * x)) p = 2 * percentile s p
      ∧ sampleMean (s.map (fun x => 2 * x)) = 2 * sampleMean s := by
  refine ⟨?_, ?_, ?_, ?_⟩
  · unfold run_monte_carlo_simulation_core
    rw [List.map_map]
    exact map_congr_fun _ (fun i => by
      simp only [Function.comp_apply]; ring)
  · unfold run_simulation
    rw [List.map_map]
    exact map_congr_fun _ (fun i => by
      simp only [Function.comp_apply, mfPathValue_two])
  · unfold percentile
    rw [List.length_map, sortR_map_two, interpAt_map_two]
  · unfold sampleMean
    rw [sum_map_two, List.length_map, mul_div_assoc]

/-- Claim C9, counterexample — for the constant two-point price series
`[1, 1]` the annualized volatility is not 0: the single daily-return
observation has pandas sample standard deviation (`ddof = 1`) `NaN`
(modelled `none`), which propagates into the annualized volatility. -/
theorem c9_counterexample : annual_vol_geom [(1 : ℝ), 1] = none := by
  simp [annual_vol_geom, sampleStd, dailyReturns]

/-- Claim C9, amended — for a constant price series with at least 3
points and nonzero price, the annualized mean return is exactly 0 in both
estimator modes and the annualized volatility is exactly 0; with exactly
2 points the mean return is still 0 but the volatility is the pandas
`NaN` of a one-observation sample standard deviation. -/
theorem c9_amended (n : ℕ) (p : ℝ) (h3 : 3 ≤ n) (hp : p ≠ 0) :
    mean_annual_ret (List.replicate n p) = some 0
      ∧ annual_return_geom (List.replicate n p) = Except.ok 0
      ∧ annual_vol_geom (List.replicate n p) = some 0 := by
  obtain ⟨m, rfl⟩ : ∃ m, n = m + 3 := ⟨n - 3, by omega⟩
  have hdr : dailyReturns (List.replicate (m + 3) p)
      = List.replicate (m + 2) 0 := dailyReturns_replicate p (m + 2)
  refine ⟨?_, ?_, ?_⟩
  · simp [mean_annual_ret, pandasMean, hdr, List.isEmpty_iff,
      List.sum_replicate]
  · simp [annual_return_geom, hdr, List.map_replicate,
      List.prod_replicate, Real.one_rpow]
  · simp [annual_vol_geom, sampleStd, hdr, List.sum_replicate,
      List.map_replicate]

/-- Witness for the amended claim C9 at the concrete constant series
`[1, 1, 1]`. -/
theorem c9_amended_witness :
    3 ≤ 3 ∧ (1 : ℝ) ≠ 0
      ∧ (mean_annual_ret (List.replicate 3 (1 : ℝ)) = some 0
        ∧ annual_return_geom (List.replicate 3 (1 : ℝ)) = Except.ok 0
        ∧ annual_vol_geom (List.replicate 3 (1 : ℝ)) = some 0) :=
  ⟨by decide, by norm_num, c9_amended 3 1 (by decide) (by norm_num)⟩

/-- Claim C10 — every terminal value of the single-factor simulation is
strictly positive whenever the initial investment is: each yearly factor
is `exp` of a real draw and the growth is a product of such factors
starting from 1. -/
theorem c10_single_factor_positive (pmr std initial : ℝ)
    (years n_sims : ℤ) (z : ℕ → ℝ) (h : 0 < initial) :
    List.Forall (fun x => 0 < x)
      (run_monte_carlo_simulation_core pmr std initial years n_sims z) := by
  rw [List.forall_iff_forall_mem]
  intro x hx
  unfold run_monte_carlo_simulation_core at hx
  simp only [List.mem_map] at hx
  obtain ⟨i, -, rfl⟩ := hx
  exact mul_pos h (sfGrowth_pos _ _ _ _ _)

/-- Witness for claim C10 at a concrete positive initial investment. -/
theorem c10_single_factor_positive_witness :
    (0 : ℝ) < 1
      ∧ List.Forall (fun x => 0 < x)
          (run_monte_carlo_simulation_core 0 0 1 1 1 (fun _ => 0)) :=
  ⟨by norm_num,
    c10_single_factor_positive 0 0 1 1 1 (fun _ => 0) (by norm_num)⟩

end FiTools
